import Mathlib

/-!
Shallow embedding of the chttp HTTP client (src/client.rs, src/lib.rs) and
verification of the specified properties of its middleware pipeline, options
resolution and client construction.

The repository sources under src/ are `client.rs` and `lib.rs`; the types they
use from the sibling modules (`options`, `error`, `middleware`, the agent) are
modelled from the spec, as marked on each definition.  The transport execution
performed by the agent is abstracted as an explicit function argument `exec`,
so that the pre- and post-processing done by `Client::send_async_impl` around
the submission is fully captured.

Durations and HTTP versions are modelled as natural numbers, URIs and header
values as strings.
-/

/-- Modelled from the spec (§4.4 redirect policy `None | Follow | Limit(n)`):
the redirect policy value type; `options.rs` is not included under src/. -/
inductive RedirectPolicy where
  | noFollow : RedirectPolicy
  | follow : RedirectPolicy
  | limit : Nat → RedirectPolicy
deriving DecidableEq, Repr

/-- Modelled from the spec (§3, §6: "timeout, connect-timeout, redirect policy,
preferred protocol version, proxy settings, TLS verification toggles", "each
independently optional"): the per-request/per-client `Options` value type;
`options.rs` is not included under src/. -/
structure Options where
  timeout : Option Nat
  connect_timeout : Option Nat
  redirect_policy : Option RedirectPolicy
  preferred_http_version : Option Nat
  proxy : Option String
  tls_verify : Option Bool
deriving DecidableEq, Repr

/-- Modelled from the spec (§3: "each independently optional; unset fields fall
back ... then to engine defaults"): the default `Options` value has every field
unset. -/
def Options.default : Options :=
  { timeout := none
    connect_timeout := none
    redirect_policy := none
    preferred_http_version := none
    proxy := none
    tls_verify := none }

/-- Modelled from the spec (§7 error kinds); `error.rs` is not included under
src/. -/
inductive Error where
  | initError : Error
  | invalidRequest : Error
  | transportError : Error
  | timeout : Error
  | tooManyRedirects : Error
  | cancelled : Error
deriving DecidableEq, Repr

/-- Modelled from the spec (§3 Body: "an opaque, single-consumption byte stream
source"); modelled as its byte content, a string.  `body.rs` is not included
under src/. -/
abbrev Body : Type := String

/-- `Body::default()` is the empty body. -/
def Body.default : Body := ""

/-- HTTP method, restricted to the verbs the client exposes. -/
inductive Method where
  | GET | HEAD | POST | PUT | DELETE
deriving DecidableEq, Repr

/-- The typed extension bag of `http::Request`/`http::Response`, restricted to
the two types the client actually stores in it: an `Options` instance attached
to a request (client.rs line 214) and the originally requested URI stamped onto
a response (client.rs line 224). -/
structure Extensions where
  options : Option Options
  uri : Option String
deriving DecidableEq, Repr

/-- The empty extension bag. -/
def Extensions.empty : Extensions := { options := none, uri := none }

/-- An HTTP request: head (method, URI, headers, extension bag) plus a body.
Headers are an ordered multimap, modelled as an association list. -/
structure Request where
  method : Method
  uri : String
  headers : List (String × String)
  extensions : Extensions
  body : Body
deriving DecidableEq, Repr

/-- An HTTP response: status, headers, extension bag and body. -/
structure Response where
  status : Nat
  headers : List (String × String)
  extensions : Extensions
  body : Body
deriving DecidableEq, Repr

/-- Modelled from the spec (§6: "Middleware capability interface:
`filter_request(Request) -> Request`, `filter_response(Response) -> Response`");
`middleware.rs` is not included under src/.  A middleware is a pair of filters. -/
structure Middleware where
  filter_request : Request → Request
  filter_response : Response → Response

/-- Modelled from the spec (§4.1): the cloneable front door to the background
agent.  Its internals are irrelevant to the claims; agent creation failure is
modelled by passing the creation outcome to `ClientBuilder.build` explicitly. -/
structure AgentHandle where
deriving DecidableEq, Repr

/-- The transport execution the agent performs for a submitted request under
the resolved options: `request::create(request, options)` followed by
`agent.begin_execute` and the resolution of the returned future
(client.rs lines 217-222).  Abstracted as a function since the agent module is
not included under src/; an `Error` result models both submission and
transport failures, which skip the response post-processing. -/
def Exec : Type := Request → Options → Except Error Response

/-- `ClientBuilder` (client.rs lines 51-54): default options plus the ordered
list of registered middleware. -/
structure ClientBuilder where
  default_options : Options
  middleware : List Middleware

/-- `ClientBuilder::new` (client.rs lines 64-69). -/
def ClientBuilder.new : ClientBuilder :=
  { default_options := Options.default, middleware := [] }

/-- `ClientBuilder::options` (client.rs lines 74-77): replaces the default
options. -/
def ClientBuilder.options (b : ClientBuilder) (o : Options) : ClientBuilder :=
  { b with default_options := o }

/-- `ClientBuilder::with_middleware` / `with_middleware_impl`
(client.rs lines 87-95): appends a middleware to the list. -/
def ClientBuilder.with_middleware (b : ClientBuilder) (m : Middleware) : ClientBuilder :=
  { b with middleware := b.middleware ++ [m] }

/-- `Client` (client.rs lines 115-119). -/
structure Client where
  agent : AgentHandle
  default_options : Options
  middleware : List Middleware

/-- `ClientBuilder::build` (client.rs lines 100-108).  `agent::create()?`
either fails early (leaving the builder untouched) or yields the agent handle;
on success the builder's middleware vector is drained (`drain(..)`) into the
client, leaving the builder's list empty.  Since `build` takes `&mut self`, the
updated builder is returned alongside the result. -/
def ClientBuilder.build (agentCreate : Except Error AgentHandle) (b : ClientBuilder) :
    Except Error Client × ClientBuilder :=
  match agentCreate with
  | .error e => (.error e, b)
  | .ok agent =>
    (.ok { agent := agent
           default_options := b.default_options
           middleware := b.middleware },
     { b with middleware := [] })

/-- `Client::new` (client.rs lines 125-127): `ClientBuilder::default().build()`. -/
def Client.new (agentCreate : Except Error AgentHandle) : Except Error Client :=
  (ClientBuilder.build agentCreate ClientBuilder.new).1

/-- The name of the User-Agent header. -/
def userAgentHeader : String := "user-agent"

/-- The `USER_AGENT` string (client.rs line 16).  Its exact value is formatted
from the curl and crate versions at run time; the claims only depend on it
being a fixed default value. -/
def USER_AGENT : String := "curl/7.61.0 chttp/0.3.1"

/-- Header-map lookup by name: the first value stored under the name, if any. -/
def lookupHeader (name : String) : List (String × String) → Option String
  | [] => none
  | (n, v) :: t => if n = name then some v else lookupHeader name t

/-- The default User-Agent step of `send_async_impl` (client.rs lines 199-202):
`headers_mut().entry(USER_AGENT).or_insert(...)` inserts the default value only
when no User-Agent header is present, and otherwise leaves the headers
unchanged. -/
def setDefaultUserAgent (req : Request) : Request :=
  match lookupHeader userAgentHeader req.headers with
  | some _ => req
  | none => { req with headers := req.headers ++ [(userAgentHeader, USER_AGENT)] }

/-- The request-middleware pass of `send_async_impl` (client.rs lines 208-211):
`for middleware in middleware.iter().rev() { request = middleware.filter_request(request) }`,
a fold over the reversed registration list. -/
def applyRequestFilters (ms : List Middleware) (req : Request) : Request :=
  ms.reverse.foldl (fun r m => m.filter_request r) req

/-- The response-middleware pass of `send_async_impl` (client.rs lines 226-229):
`for middleware in middleware.iter() { response = middleware.filter_response(response) }`,
a fold over the registration list in order. -/
def applyResponseFilters (ms : List Middleware) (resp : Response) : Response :=
  ms.foldl (fun r m => m.filter_response r) resp

/-- `request.extensions_mut().remove::<Options>()` (client.rs line 214), the
removal half: the request with no `Options` extension. -/
def removeOptionsExt (req : Request) : Request :=
  { req with extensions := { req.extensions with options := none } }

/-- `response.extensions_mut().insert(uri)` (client.rs line 224): stamps the
URI onto the response's extension bag. -/
def insertUriExt (uri : String) (resp : Response) : Response :=
  { resp with extensions := { resp.extensions with uri := some uri } }

/-- The options-resolution step of `send_async_impl` (client.rs lines 213-215)
as a function of the client and the original request: the `Options` extension
of the request after the default User-Agent step and the request-middleware
pass, or the client's default options when absent
(`options.as_ref().unwrap_or(&self.default_options)`). -/
def resolvedOptions (c : Client) (req : Request) : Options :=
  ((applyRequestFilters c.middleware (setDefaultUserAgent req)).extensions.options).getD
    c.default_options

/-- `Client::send_async_impl` (client.rs lines 195-233), parameterized by the
transport execution `exec`: set the default User-Agent, capture the URI, run
the request filters over the reversed middleware list, extract and remove the
`Options` extension (falling back to the client defaults), execute, and on
success stamp the captured URI onto the response and run the response filters
over the middleware list in order. -/
def send_async_impl (c : Client) (exec : Exec) (req : Request) : Except Error Response :=
  let request := setDefaultUserAgent req
  let uri := request.uri
  let request := applyRequestFilters c.middleware request
  let opts := request.extensions.options
  let request := removeOptionsExt request
  let options := opts.getD c.default_options
  (exec request options).map fun response =>
    applyResponseFilters c.middleware (insertUriExt uri response)

/-- `Client::send` (client.rs lines 179-181): blocks on `send_async_impl`. -/
def Client.send (c : Client) (exec : Exec) (req : Request) : Except Error Response :=
  send_async_impl c exec req

/-- Model of the external `http` crate's request construction used by the verb
methods (`http::Request::<verb>(uri).body(...)?`, client.rs lines 138, 144,
152, 160, 168): builds a request with the given method, URI and body and no
headers or extensions; a malformed URI fails with `InvalidRequest` (the spec's
§7 `InvalidRequest`: "malformed URI ... detected before submission, surfaced
synchronously"; URI validity is abstracted as nonemptiness). -/
def buildRequest (m : Method) (uri : String) (b : Body) : Except Error Request :=
  if uri = "" then .error Error.invalidRequest
  else .ok { method := m, uri := uri, headers := [], extensions := Extensions.empty, body := b }

/-- `Client::get` (client.rs lines 137-140). -/
def Client.get (c : Client) (exec : Exec) (uri : String) : Except Error Response :=
  match buildRequest Method.GET uri Body.default with
  | .error e => .error e
  | .ok request => c.send exec request

/-- `Client::head` (client.rs lines 143-146). -/
def Client.head (c : Client) (exec : Exec) (uri : String) : Except Error Response :=
  match buildRequest Method.HEAD uri Body.default with
  | .error e => .error e
  | .ok request => c.send exec request

/-- `Client::post` (client.rs lines 151-154). -/
def Client.post (c : Client) (exec : Exec) (uri : String) (b : Body) : Except Error Response :=
  match buildRequest Method.POST uri b with
  | .error e => .error e
  | .ok request => c.send exec request

/-- `Client::put` (client.rs lines 159-162). -/
def Client.put (c : Client) (exec : Exec) (uri : String) (b : Body) : Except Error Response :=
  match buildRequest Method.PUT uri b with
  | .error e => .error e
  | .ok request => c.send exec request

/-- `Client::delete` (client.rs lines 167-170). -/
def Client.delete (c : Client) (exec : Exec) (uri : String) : Except Error Response :=
  match buildRequest Method.DELETE uri Body.default with
  | .error e => .error e
  | .ok request => c.send exec request

/-- The outcome of a computation that may panic: models Rust's `unwrap()`
aborting on an `Err` value. -/
inductive Fatal (α : Type) where
  | panicked : Fatal α
  | ok : α → Fatal α
deriving DecidableEq, Repr

/-- `client::global` (client.rs lines 20-26): the lazily constructed process-wide
default client, `Client::new().unwrap()` — every construction error becomes a
panic. -/
def global (agentCreate : Except Error AgentHandle) : Fatal Client :=
  match Client.new agentCreate with
  | .ok c => .ok c
  | .error _ => .panicked

/-- The free-standing `chttp::get` (lib.rs lines 185-187):
`client::global().get(uri)`; a panic during global-client construction aborts
the call. -/
def Chttp.get (agentCreate : Except Error AgentHandle) (exec : Exec) (uri : String) :
    Fatal (Except Error Response) :=
  match global agentCreate with
  | .panicked => .panicked
  | .ok c => .ok (c.get exec uri)

/-- The free-standing `chttp::head` (lib.rs lines 190-192). -/
def Chttp.head (agentCreate : Except Error AgentHandle) (exec : Exec) (uri : String) :
    Fatal (Except Error Response) :=
  match global agentCreate with
  | .panicked => .panicked
  | .ok c => .ok (c.head exec uri)

/-- The free-standing `chttp::post` (lib.rs lines 197-199). -/
def Chttp.post (agentCreate : Except Error AgentHandle) (exec : Exec) (uri : String) (b : Body) :
    Fatal (Except Error Response) :=
  match global agentCreate with
  | .panicked => .panicked
  | .ok c => .ok (c.post exec uri b)

/-- The free-standing `chttp::put` (lib.rs lines 204-206). -/
def Chttp.put (agentCreate : Except Error AgentHandle) (exec : Exec) (uri : String) (b : Body) :
    Fatal (Except Error Response) :=
  match global agentCreate with
  | .panicked => .panicked
  | .ok c => .ok (c.put exec uri b)

/-- The free-standing `chttp::delete` (lib.rs lines 211-213). -/
def Chttp.delete (agentCreate : Except Error AgentHandle) (exec : Exec) (uri : String) :
    Fatal (Except Error Response) :=
  match global agentCreate with
  | .panicked => .panicked
  | .ok c => .ok (c.delete exec uri)

/-- The free-standing `chttp::send` (lib.rs lines 222-224). -/
def Chttp.send (agentCreate : Except Error AgentHandle) (exec : Exec) (req : Request) :
    Fatal (Except Error Response) :=
  match global agentCreate with
  | .panicked => .panicked
  | .ok c => .ok (c.send exec req)

/-- Refinement reference, following the spec's words (§6: verb methods "each
constructing a minimal Request and delegating to `send`"): build a minimal
request with the given method, URI and body, and delegate it to `Client.send`. -/
def specVerb (c : Client) (exec : Exec) (m : Method) (uri : String) (b : Body) :
    Except Error Response :=
  match buildRequest m uri b with
  | .error e => .error e
  | .ok request => c.send exec request

/-- The client the global constructor produces on success: default options and
no middleware. -/
def defaultClient (a : AgentHandle) : Client :=
  { agent := a, default_options := Options.default, middleware := [] }

/-! Instrumentation for observing the order in which filters run: marker
middleware append a distinguishable trace header, as in the spec's §8 ordering
test ("having each filter append a distinguishable marker and asserting the
final marker sequence"). -/

/-- The header name used by marker middleware. -/
def traceHeader : String := "x-trace"

/-- A marker middleware: both filters append a trace header carrying the
marker's name, so the trace records the order of application. -/
def mkMarker (s : String) : Middleware :=
  { filter_request := fun r => { r with headers := r.headers ++ [(traceHeader, s)] }
    filter_response := fun r => { r with headers := r.headers ++ [(traceHeader, s)] } }

/-- The sequence of trace markers in a header list, in order. -/
def headerTrace (hs : List (String × String)) : List String :=
  hs.filterMap fun p => if p.1 = traceHeader then some p.2 else none

/-- A request with no headers, no extensions and an empty body. -/
def emptyRequest : Request :=
  { method := Method.GET, uri := "http://example.org", headers := []
    extensions := Extensions.empty, body := Body.default }

/-- A response with no headers and no extensions. -/
def emptyResponse : Response :=
  { status := 200, headers := [], extensions := Extensions.empty, body := Body.default }

/-- The order in which the request filters of markers registered under `names`
(in registration order) are applied by the request-middleware pass, observed as
the trace they leave on a fresh request. -/
def requestFilterOrder (names : List String) : List String :=
  headerTrace (applyRequestFilters (names.map mkMarker) emptyRequest).headers

/-- The order in which the response filters of markers registered under `names`
(in registration order) are applied by the response-middleware pass, observed
as the trace they leave on a fresh response. -/
def responseFilterOrder (names : List String) : List String :=
  headerTrace (applyResponseFilters (names.map mkMarker) emptyResponse).headers

/-- A transport execution that records the options it was given inside the
response's extension bag, making the options parameterizing the submission
observable. -/
def recordExec : Exec := fun _ o =>
  .ok { status := 200, headers := [], extensions := { options := some o, uri := none }
        body := Body.default }

/-- A transport execution that succeeds with a fixed fresh response. -/
def constExec : Exec := fun _ _ => .ok emptyResponse

/-- A client with default options and no middleware. -/
def client0 : Client := defaultClient {}

/-- A client whose default options set a 60-unit timeout, with no middleware. -/
def opts60 : Options := { Options.default with timeout := some 60 }

/-- See `opts60`. -/
def client60 : Client := { agent := {}, default_options := opts60, middleware := [] }

/-- A request carrying an all-unset `Options` instance as an extension. -/
def reqWithDefaultOpts : Request :=
  { emptyRequest with extensions := { options := some Options.default, uri := none } }

/-- A request carrying `opts60` as an extension. -/
def reqWithOpts60 : Request :=
  { emptyRequest with extensions := { options := some opts60, uri := none } }

/-- A request that already carries a User-Agent header. -/
def reqWithUA : Request :=
  { emptyRequest with headers := [(userAgentHeader, "custom/1.0")] }

/-! Helper lemmas. -/

/-- The trace of a concatenation of header lists is the concatenation of the
traces. -/
theorem headerTrace_append (xs ys : List (String × String)) :
    headerTrace (xs ++ ys) = headerTrace xs ++ headerTrace ys := by
  simp [headerTrace]

/-- Folding the request filters of markers named `ns` (applied left to right)
appends exactly `ns` to the trace. -/
theorem requestMarkerFold (ns : List String) (req : Request) :
    headerTrace ((ns.map mkMarker).foldl (fun r m => m.filter_request r) req).headers
      = headerTrace req.headers ++ ns := by
  induction ns generalizing req with
  | nil => simp
  | cons a t ih =>
      simp only [List.map_cons, List.foldl_cons]
      rw [ih]
      simp [mkMarker, headerTrace_append, headerTrace]

/-- Folding the response filters of markers named `ns` (applied left to right)
appends exactly `ns` to the trace. -/
theorem responseMarkerFold (ns : List String) (resp : Response) :
    headerTrace ((ns.map mkMarker).foldl (fun r m => m.filter_response r) resp).headers
      = headerTrace resp.headers ++ ns := by
  induction ns generalizing resp with
  | nil => simp
  | cons a t ih =>
      simp only [List.map_cons, List.foldl_cons]
      rw [ih]
      simp [mkMarker, headerTrace_append, headerTrace]

/-- The request-middleware pass applies the filters in reverse registration
order: markers registered as `names` leave the trace `names.reverse`. -/
theorem requestFilterOrder_eq (names : List String) :
    requestFilterOrder names = names.reverse := by
  unfold requestFilterOrder applyRequestFilters
  rw [← List.map_reverse, requestMarkerFold]
  simp [emptyRequest, headerTrace]

/-- The response-middleware pass applies the filters in registration order:
markers registered as `names` leave the trace `names`. -/
theorem responseFilterOrder_eq (names : List String) :
    responseFilterOrder names = names := by
  unfold responseFilterOrder applyResponseFilters
  rw [show (names.map mkMarker) = (names.map mkMarker) from rfl, responseMarkerFold]
  simp [emptyResponse, headerTrace]

/-- The default User-Agent step does not change the request URI. -/
theorem setDefaultUserAgent_uri (req : Request) :
    (setDefaultUserAgent req).uri = req.uri := by
  unfold setDefaultUserAgent
  cases lookupHeader userAgentHeader req.headers <;> rfl

/-- The default User-Agent step does not change the request's extension bag. -/
theorem setDefaultUserAgent_extensions (req : Request) :
    (setDefaultUserAgent req).extensions = req.extensions := by
  unfold setDefaultUserAgent
  cases lookupHeader userAgentHeader req.headers <;> rfl

/-- Appending a header under a name that is absent makes it the lookup result. -/
theorem lookupHeader_append_self (n v : String) (hs : List (String × String))
    (h : lookupHeader n hs = none) :
    lookupHeader n (hs ++ [(n, v)]) = some v := by
  induction hs with
  | nil => simp [lookupHeader]
  | cons p t ih =>
      rcases p with ⟨m, w⟩
      rw [lookupHeader] at h
      by_cases hm : m = n
      · rw [if_pos hm] at h
        exact absurd h (by simp)
      · rw [if_neg hm] at h
        show lookupHeader n ((m, w) :: (t ++ [(n, v)])) = some v
        rw [lookupHeader, if_neg hm]
        exact ih h

/-! Claim theorems. -/

/-- C1 counterexample: with middleware registered as A then B, the
request-middleware pass applies B's request filter first — the trace is
["B", "A"], not the ["A", "B"] the claim (first registered runs first)
predicts. -/
theorem request_filter_order_cex :
    requestFilterOrder ["A", "B"] = ["B", "A"] ∧
    requestFilterOrder ["A", "B"] ≠ ["A", "B"] := by
  constructor
  · rfl
  · intro h
    rw [show requestFilterOrder ["A", "B"] = ["B", "A"] from rfl] at h
    exact absurd h (by decide)

/-- C1 (amended): the request-middleware pass of `send_async_impl` applies the
registered request filters in reverse registration order — the last registered
middleware's `filter_request` runs first and the first registered runs last —
before the request is submitted for execution (the pass feeds, after options
extraction, directly into `exec`). -/
theorem request_filters_last_registered_first (names : List String) (c : Client)
    (exec : Exec) (req : Request) :
    requestFilterOrder names = names.reverse ∧
    send_async_impl c exec req =
      (exec (removeOptionsExt (applyRequestFilters c.middleware (setDefaultUserAgent req)))
            (resolvedOptions c req)).map
        (fun response =>
          applyResponseFilters c.middleware (insertUriExt (setDefaultUserAgent req).uri response)) := by
  exact ⟨requestFilterOrder_eq names, rfl⟩

/-- C4: the order in which the response filters are applied is the exact
reverse of the order in which the request filters are applied for the same
registered middleware list. -/
theorem response_filters_reverse_of_request_filters (names : List String) :
    responseFilterOrder names = (requestFilterOrder names).reverse := by
  rw [requestFilterOrder_eq, responseFilterOrder_eq, List.reverse_reverse]

/-- C2 counterexample: when agent creation fails, the free-standing `get` call
panics while constructing the global client; the failure is not surfaced as a
propagated `Result` error. -/
theorem global_client_panic_cex :
    Chttp.get (Except.error Error.initError) recordExec "http://example.org" = Fatal.panicked ∧
    Chttp.get (Except.error Error.initError) recordExec "http://example.org" ≠
      Fatal.ok (Except.error Error.initError) := by
  refine ⟨rfl, ?_⟩
  intro h
  rw [show Chttp.get (Except.error Error.initError) recordExec "http://example.org"
        = Fatal.panicked from rfl] at h
  exact Fatal.noConfusion h

/-- C2 (amended): a failure to construct the lazily-initialized process-wide
default client is always surfaced as a panic by the free-standing verb
functions (`Client::new().unwrap()`), never as a propagated `Result` error;
when construction succeeds, each free-standing function returns the `Result`
of the corresponding call on the default client, so the errors it propagates
arise only from request construction and sending. -/
theorem init_failure_always_panics (e : Error) (exec : Exec) (uri : String) (b : Body)
    (req : Request) (a : AgentHandle) :
    Chttp.get (.error e) exec uri = .panicked ∧
    Chttp.head (.error e) exec uri = .panicked ∧
    Chttp.post (.error e) exec uri b = .panicked ∧
    Chttp.put (.error e) exec uri b = .panicked ∧
    Chttp.delete (.error e) exec uri = .panicked ∧
    Chttp.send (.error e) exec req = .panicked ∧
    Chttp.get (.ok a) exec uri = .ok ((defaultClient a).get exec uri) ∧
    Chttp.send (.ok a) exec req = .ok ((defaultClient a).send exec req) := by
  exact ⟨rfl, rfl, rfl, rfl, rfl, rfl, rfl, rfl⟩

/-- C3 counterexample: a request carrying an all-unset `Options` extension,
sent through a client whose default options set a timeout of 60, is submitted
with the all-unset options — the unset timeout field does not fall back to the
client default's 60. -/
theorem options_fieldwise_merge_cex :
    (send_async_impl client60 recordExec reqWithDefaultOpts).map
        (fun r => r.extensions.options) = Except.ok (some Options.default) ∧
    Options.default.timeout = none ∧
    client60.default_options.timeout = some 60 ∧
    Options.default.timeout ≠ client60.default_options.timeout := by
  refine ⟨rfl, rfl, rfl, by decide⟩

/-- C3 (amended): options resolution is whole-struct replacement, not a
field-wise merge — when the request (after the User-Agent step and the request
middleware) carries an `Options` extension `o`, the submission is parameterized
by exactly `o`, including its unset fields; the client's default options play
no role. -/
theorem options_whole_struct_replacement (c : Client) (exec : Exec) (req : Request)
    (o : Options)
    (h : (applyRequestFilters c.middleware (setDefaultUserAgent req)).extensions.options
          = some o) :
    resolvedOptions c req = o ∧
    send_async_impl c exec req =
      (exec (removeOptionsExt (applyRequestFilters c.middleware (setDefaultUserAgent req))) o).map
        (fun response =>
          applyResponseFilters c.middleware (insertUriExt (setDefaultUserAgent req).uri response)) := by
  have ho : resolvedOptions c req = o := by
    unfold resolvedOptions
    rw [h]
    rfl
  refine ⟨ho, ?_⟩
  rw [show send_async_impl c exec req =
      (exec (removeOptionsExt (applyRequestFilters c.middleware (setDefaultUserAgent req)))
            (resolvedOptions c req)).map
        (fun response =>
          applyResponseFilters c.middleware (insertUriExt (setDefaultUserAgent req).uri response))
    from rfl, ho]

/-- C3 witness: the amended theorem applied to a concrete client and request. -/
theorem options_whole_struct_replacement_witness :
    resolvedOptions client60 reqWithDefaultOpts = Options.default :=
  (options_whole_struct_replacement client60 recordExec reqWithDefaultOpts
    Options.default rfl).1

/-- C5: the `Options` extension carried by the request after request middleware
takes precedence — if present, it is the options value used to parameterize the
submission; if absent, the client's default options (those given to
`ClientBuilder::options`, carried into the built client) are used instead. -/
theorem options_extension_precedence (c : Client) (exec : Exec) (req : Request) :
    (∀ o : Options,
        (applyRequestFilters c.middleware (setDefaultUserAgent req)).extensions.options = some o →
          resolvedOptions c req = o) ∧
    ((applyRequestFilters c.middleware (setDefaultUserAgent req)).extensions.options = none →
        resolvedOptions c req = c.default_options) ∧
    (∀ b : ClientBuilder, ∀ o : Options, ∀ a : AgentHandle,
        (ClientBuilder.build (.ok a) (ClientBuilder.options b o)).1 =
          .ok { agent := a, default_options := o, middleware := b.middleware }) ∧
    send_async_impl c exec req =
      (exec (removeOptionsExt (applyRequestFilters c.middleware (setDefaultUserAgent req)))
            (resolvedOptions c req)).map
        (fun response =>
          applyResponseFilters c.middleware (insertUriExt (setDefaultUserAgent req).uri response)) := by
  refine ⟨?_, ?_, ?_, rfl⟩
  · intro o h
    unfold resolvedOptions
    rw [h]
    rfl
  · intro h
    unfold resolvedOptions
    rw [h]
    rfl
  · intro b o a
    rfl

/-- C5 witness: the precedence theorem applied to concrete requests with and
without an `Options` extension. -/
theorem options_extension_precedence_witness :
    resolvedOptions client0 reqWithOpts60 = opts60 ∧
    resolvedOptions client0 emptyRequest = client0.default_options :=
  ⟨(options_extension_precedence client0 constExec reqWithOpts60).1 opts60 rfl,
   (options_extension_precedence client0 constExec emptyRequest).2.1 rfl⟩

/-- C6: on successful execution, the URI of the request as passed to `send`
(unchanged by the User-Agent step) is stamped onto the response's extension bag
before the response-middleware pass runs over it, so every response filter
receives a response carrying the originally requested URI. -/
theorem uri_stamped_before_response_filters (c : Client) (exec : Exec) (req : Request)
    (resp : Response)
    (h : exec (removeOptionsExt (applyRequestFilters c.middleware (setDefaultUserAgent req)))
          (resolvedOptions c req) = .ok resp) :
    send_async_impl c exec req =
      .ok (applyResponseFilters c.middleware (insertUriExt req.uri resp)) ∧
    (insertUriExt req.uri resp).extensions.uri = some req.uri := by
  constructor
  · rw [show send_async_impl c exec req =
        (exec (removeOptionsExt (applyRequestFilters c.middleware (setDefaultUserAgent req)))
              (resolvedOptions c req)).map
          (fun response =>
            applyResponseFilters c.middleware
              (insertUriExt (setDefaultUserAgent req).uri response))
      from rfl, h, setDefaultUserAgent_uri]
    rfl
  · rfl

/-- C6 witness: the theorem applied to a concrete client, request and
execution. -/
theorem uri_stamped_before_response_filters_witness :
    send_async_impl client0 constExec emptyRequest =
      .ok (applyResponseFilters client0.middleware
            (insertUriExt emptyRequest.uri emptyResponse)) ∧
    (insertUriExt emptyRequest.uri emptyResponse).extensions.uri = some emptyRequest.uri :=
  uri_stamped_before_response_filters client0 constExec emptyRequest emptyResponse rfl

/-- C7: each verb — the `Client` methods and, for a successfully constructed
global client, the free-standing functions — is equivalent to the spec's
reference behavior `specVerb`: construct a minimal request with the
corresponding method, the given URI and the given body (empty for
get/head/delete) and delegate it to `send`. -/
theorem verb_methods_delegate_to_send (c : Client) (exec : Exec) (uri : String) (b : Body)
    (a : AgentHandle) :
    c.get exec uri = specVerb c exec Method.GET uri Body.default ∧
    c.head exec uri = specVerb c exec Method.HEAD uri Body.default ∧
    c.post exec uri b = specVerb c exec Method.POST uri b ∧
    c.put exec uri b = specVerb c exec Method.PUT uri b ∧
    c.delete exec uri = specVerb c exec Method.DELETE uri Body.default ∧
    Chttp.get (.ok a) exec uri = .ok (specVerb (defaultClient a) exec Method.GET uri Body.default) ∧
    Chttp.head (.ok a) exec uri = .ok (specVerb (defaultClient a) exec Method.HEAD uri Body.default) ∧
    Chttp.post (.ok a) exec uri b = .ok (specVerb (defaultClient a) exec Method.POST uri b) ∧
    Chttp.put (.ok a) exec uri b = .ok (specVerb (defaultClient a) exec Method.PUT uri b) ∧
    Chttp.delete (.ok a) exec uri = .ok (specVerb (defaultClient a) exec Method.DELETE uri Body.default) := by
  exact ⟨rfl, rfl, rfl, rfl, rfl, rfl, rfl, rfl, rfl, rfl⟩

/-- C8: before any request middleware runs, the default User-Agent header value
is inserted when the request has none, and an existing User-Agent header leaves
the request untouched; the request-middleware pass receives exactly
`setDefaultUserAgent req`. -/
theorem default_user_agent_inserted (c : Client) (exec : Exec) (req : Request) :
    (lookupHeader userAgentHeader req.headers = none →
        lookupHeader userAgentHeader (setDefaultUserAgent req).headers = some USER_AGENT) ∧
    (∀ v : String, lookupHeader userAgentHeader req.headers = some v →
        setDefaultUserAgent req = req) ∧
    send_async_impl c exec req =
      (exec (removeOptionsExt (applyRequestFilters c.middleware (setDefaultUserAgent req)))
            (resolvedOptions c req)).map
        (fun response =>
          applyResponseFilters c.middleware (insertUriExt (setDefaultUserAgent req).uri response)) := by
  refine ⟨?_, ?_, rfl⟩
  · intro h
    unfold setDefaultUserAgent
    rw [h]
    exact lookupHeader_append_self userAgentHeader USER_AGENT req.headers h
  · intro v hv
    unfold setDefaultUserAgent
    rw [hv]

/-- C8 witness: the theorem applied to a request without a User-Agent header
and to one that already carries one. -/
theorem default_user_agent_inserted_witness :
    lookupHeader userAgentHeader (setDefaultUserAgent emptyRequest).headers = some USER_AGENT ∧
    setDefaultUserAgent reqWithUA = reqWithUA :=
  ⟨(default_user_agent_inserted client0 constExec emptyRequest).1 rfl,
   (default_user_agent_inserted client0 constExec reqWithUA).2.1 "custom/1.0" rfl⟩

/-- C9: the request handed to the execution step carries no `Options`
extension (it is removed after the request-middleware pass), while the
request-middleware pass itself receives the request with the caller's extension
bag — including any `Options` extension — intact. -/
theorem options_removed_before_submission (c : Client) (exec : Exec) (req : Request) :
    (removeOptionsExt (applyRequestFilters c.middleware (setDefaultUserAgent req))).extensions.options
      = none ∧
    (setDefaultUserAgent req).extensions = req.extensions ∧
    send_async_impl c exec req =
      (exec (removeOptionsExt (applyRequestFilters c.middleware (setDefaultUserAgent req)))
            (resolvedOptions c req)).map
        (fun response =>
          applyResponseFilters c.middleware (insertUriExt (setDefaultUserAgent req).uri response)) := by
  exact ⟨rfl, setDefaultUserAgent_extensions req, rfl⟩

/-- C10: a successful `build` drains the builder's middleware list — the
builder afterwards holds no middleware, and a second `build` on it succeeds
with a client whose middleware pipeline is empty. -/
theorem build_drains_middleware (b : ClientBuilder) (a a2 : AgentHandle) :
    (ClientBuilder.build (.ok a) b).2.middleware = [] ∧
    ∃ c2 : Client,
      (ClientBuilder.build (.ok a2) (ClientBuilder.build (.ok a) b).2).1 = .ok c2 ∧
        c2.middleware = [] := by
  exact ⟨rfl, ⟨_, rfl, rfl⟩⟩
